import Mathlib

/-!
Verification of the incremental-build decision engine of the banking
pipeline: the ingestion ledger (idempotency gate), the schema version
tracker, the per-layer new-work (delta) detector, the layer build
orchestrators, and the locked-write retry executor.

The definitions below are a shallow embedding of the Python source in
`banking_pipeline/`: database tables become Lean lists of records, SQL
queries become list computations, fallible external calls become
`Except`-valued oracles passed in as parameters, and `uuid4()` or
`datetime.now()` values become explicit parameters.
-/

namespace BankingPipeline

/-! ## Data model: ledger records and schema versions -/

/-- One row of `raw.file_ingestion_metadata` (see
`DuckDBResource.initialize_metadata_tables`). Timestamps are abstract
naturals; `error_message` is nullable. -/
structure LedgerRecord where
  file_id : String
  file_path : String
  file_name : String
  file_type : String
  file_hash : String
  file_size_bytes : Nat
  row_count : Nat
  ingestion_timestamp : Nat
  processing_status : String
  error_message : Option String
deriving DecidableEq, Repr

/-- One column of an observed schema, as produced by `_detect_schema`:
a {name, type, nullable} triple. -/
structure ColumnDef where
  name : String
  dtype : String
  nullable : Bool
deriving DecidableEq, Repr

/-- One row of `raw.schema_version_tracking`. -/
structure SchemaVersionRec where
  schema_id : String
  table_name : String
  schema_version : Nat
  column_definitions : List ColumnDef
  previous_version_id : Option String
  change_description : String
deriving DecidableEq, Repr

/-! ## Ingestion ledger (`raw_layer._check_file_processed`,
`raw_layer._record_file_metadata`) -/

/-- Embedding of `_check_file_processed`: the SQL
`SELECT 1 FROM raw.file_ingestion_metadata WHERE file_hash = ? AND
processing_status = completed` followed by `len(result) > 0`. -/
def checkFileProcessed (ledger : List LedgerRecord) (h : String) : Bool :=
  (ledger.filter
    (fun r => r.file_hash == h && r.processing_status == "completed")).length > 0

/-- The `DO UPDATE SET` clause of the ledger upsert: only
processing_status, error_message and ingestion_timestamp are taken
from the excluded (new) row, every other field of the conflicting row
is kept. Applied to rows whose file_hash matches the new row. -/
def ledgerUpdate (newRec r : LedgerRecord) : LedgerRecord :=
  if r.file_hash == newRec.file_hash then
    { r with
      processing_status := newRec.processing_status
      error_message := newRec.error_message
      ingestion_timestamp := newRec.ingestion_timestamp }
  else r

/-- Embedding of `_record_file_metadata`: an
`INSERT ... ON CONFLICT (file_hash) DO UPDATE SET processing_status,
error_message, ingestion_timestamp` upsert on a table with
`UNIQUE(file_hash)`. If no row carries the hash the full new row is
inserted; otherwise the conflicting row keeps all its fields except the
three updated ones. -/
def recordFileMetadata (ledger : List LedgerRecord) (newRec : LedgerRecord) :
    List LedgerRecord :=
  if ledger.any (fun r => r.file_hash == newRec.file_hash) then
    ledger.map (ledgerUpdate newRec)
  else
    ledger ++ [newRec]

/-! ## Schema version tracker (`raw_layer._check_schema_change`,
`raw_layer._record_schema_version`) -/

/-- Embedding of the SQL `SELECT schema_id, schema_version,
column_definitions FROM raw.schema_version_tracking WHERE table_name = ?
ORDER BY schema_version DESC LIMIT 1`: the row with the greatest
`schema_version` among rows for the table, or `none`. -/
def latestSchemaVersion (svs : List SchemaVersionRec) (t : String) :
    Option SchemaVersionRec :=
  (svs.filter (fun r => r.table_name == t)).foldl
    (fun best r =>
      match best with
      | none => some r
      | some b => if r.schema_version > b.schema_version then some r else some b)
    none

/-- Embedding of `_check_schema_change`: returns
(has_changed, new_version, previous_schema_id). Schema comparison is the
Python `prev_schema != new_schema` on lists of column dicts, i.e.
order-sensitive structural list equality. -/
def checkSchemaChange (svs : List SchemaVersionRec) (t : String)
    (newSchema : List ColumnDef) : Bool × Nat × Option String :=
  match latestSchemaVersion svs t with
  | none => (true, 1, none)
  | some prev =>
      if prev.column_definitions ≠ newSchema then
        (true, prev.schema_version + 1, some prev.schema_id)
      else
        (false, prev.schema_version, some prev.schema_id)

/-- Embedding of `_record_schema_version`: inserts one new row into
`raw.schema_version_tracking` with a fresh `schema_id`. -/
def recordSchemaVersion (svs : List SchemaVersionRec) (t : String)
    (schema : List ColumnDef) (version : Nat) (prevId : Option String)
    (changeDesc : String) (freshId : String) : List SchemaVersionRec :=
  svs ++ [{ schema_id := freshId, table_name := t, schema_version := version,
            column_definitions := schema, previous_version_id := prevId,
            change_description := changeDesc }]

/-- Embedding of the schema-tracking sequence of `raw_accounts` /
`raw_customers`: call `_check_schema_change`, and when it reports a
change, record a new version whose description distinguishes the
initial schema from a detected change. Returns (changed, version,
updated table). -/
def trackSchema (svs : List SchemaVersionRec) (t : String)
    (schema : List ColumnDef) (freshId : String) :
    Bool × Nat × List SchemaVersionRec :=
  match checkSchemaChange svs t schema with
  | (changed, version, prevId) =>
      if changed then
        let changeDesc :=
          if version == 1 then "Initial schema" else "Schema change detected"
        (true, version, recordSchemaVersion svs t schema version prevId changeDesc freshId)
      else
        (false, version, svs)

/-! ## Layer delta detector (`structured_layer._check_for_new_raw_data`,
`curated_layer._check_for_new_structured_data`) -/

/-- Abstract result of a SQL query: a missing table (or any other engine
error) surfaces as `Except.error`. A relation that exists is a list of
its join-key values. -/
def antiJoinCount (src tgt : Option (List String)) : Except Unit Nat :=
  match src, tgt with
  | some s, some t =>
      Except.ok ((s.filter (fun k => !(t.contains k))).length)
  | _, _ => Except.error ()

/-- Count query over the source relation alone; errors when the source
relation does not exist. -/
def countSource (src : Option (List String)) : Except Unit Nat :=
  match src with
  | some s => Except.ok s.length
  | none => Except.error ()

/-- Structure shared by both detectors: an anti-join query, and on any
error a fallback count of the source, and on any further error the
count 0. The two query arguments are oracles so that arbitrary engine
failures (not only missing tables) are representable. -/
def newCountFallback (antiJoinQ countQ : Except Unit Nat) : Nat :=
  match antiJoinQ with
  | Except.ok n => n
  | Except.error _ =>
      match countQ with
      | Except.ok n => n
      | Except.error _ => 0

/-- New-row count for one source/target pair, as computed by one
`try/except` block of `_check_for_new_raw_data` or
`_check_for_new_structured_data`: the `NOT EXISTS` anti-join, falling
back to a bare source count, falling back to 0. -/
def checkForNewData (src tgt : Option (List String)) : Nat :=
  newCountFallback (antiJoinCount src tgt) (countSource src)

/-- Embedding of `_check_for_new_raw_data`: returns
(has_new_data, new_accounts, new_customers), where has_new_data is
`new_accounts > 0 or new_customers > 0`. -/
def checkForNewRawData (rawAcc strAcc rawCust strCust : Option (List String)) :
    Bool × Nat × Nat :=
  let newAccounts := checkForNewData rawAcc strAcc
  let newCustomers := checkForNewData rawCust strCust
  (newAccounts > 0 || newCustomers > 0, newAccounts, newCustomers)

/-- One row of `structured.str_accounts` as the curated-layer detector
sees it: a join key (account_id) and an account_type. -/
structure StrAccountRow where
  account_id : String
  account_type : String
deriving DecidableEq, Repr

/-- Embedding of `_check_for_new_structured_data`: counts
`structured.str_accounts` rows with account_type = savings whose
account_id has no match in `curated.fact_customer_balances`, with the
same missing-table fallbacks; returns (has_new, new_records). -/
def checkForNewStructuredData (strAcc : Option (List StrAccountRow))
    (fact : Option (List String)) : Bool × Nat :=
  let savingsKeys :=
    strAcc.map (fun rows =>
      (rows.filter (fun r => r.account_type == "savings")).map
        (fun r => r.account_id))
  let newRecords := checkForNewData savingsKeys fact
  (newRecords > 0, newRecords)

/-! ## Raw-layer ingestion asset (`raw_layer.raw_accounts`,
`raw_layer.raw_customers`) -/

/-- One object-store listing entry as returned by `s3.list_files`. -/
structure S3Obj where
  key : String
  size : Nat
  last_modified : Nat
deriving DecidableEq, Repr

/-- Result of `sorted(files, key=last_modified, reverse=True)[0]` on a
nonempty listing: the entry with the greatest last_modified, the
earliest listed one among ties (Python sorts are stable). -/
def latestFile (f : S3Obj) (rest : List S3Obj) : S3Obj :=
  rest.foldl (fun best x =>
    if x.last_modified > best.last_modified then x else best) f

/-- Result of downloading and parsing a CSV: its row count and its
detected schema (metadata columns already dropped, as in the source). -/
structure ParsedFile where
  row_count : Nat
  schema : List ColumnDef
deriving DecidableEq, Repr

/-- Raw-layer database state: the ingestion ledger, the schema version
chain, and the raw tables (name, row count) as an association list. -/
structure RawDB where
  ledger : List LedgerRecord
  schemaVersions : List SchemaVersionRec
  rawTables : List (String × Nat)
deriving DecidableEq, Repr

/-- Embedding of `CREATE TABLE IF NOT EXISTS raw.{t} AS SELECT * FROM df
WHERE 1=0`: adds an empty table when absent. -/
def createTableIfMissing (tables : List (String × Nat)) (t : String) :
    List (String × Nat) :=
  if tables.any (fun p => p.1 == t) then tables else tables ++ [(t, 0)]

/-- Embedding of `INSERT INTO raw.{t} SELECT * FROM df` on the row-count
abstraction: append-only growth of the named table. -/
def insertRows (tables : List (String × Nat)) (t : String) (n : Nat) :
    List (String × Nat) :=
  tables.map (fun p => if p.1 == t then (p.1, p.2 + n) else p)

/-- Outcome of one raw ingestion invocation, mirroring the four exits of
`raw_accounts` / `raw_customers`: the empty-listing warning return, the
already-processed skip return, the success return, and the re-raised
exception of the failure path. -/
inductive IngestOutcome where
  | noFiles
  | skipped (file_hash : String)
  | success (row_count : Nat) (file_hash : String) (schema_version : Nat)
  | failed (error_message : String)
deriving DecidableEq, Repr

/-- Status text carried in the result metadata of the corresponding
non-exceptional exits of the asset. -/
def IngestOutcome.statusText : IngestOutcome → Option String
  | IngestOutcome.noFiles => some "⚠️ NO FILES FOUND"
  | IngestOutcome.skipped _ => some "Skipped - already processed"
  | IngestOutcome.success _ _ _ => none
  | IngestOutcome.failed _ => none

/-- Ledger row as built by a `_record_file_metadata` call of the asset:
file_path is `bucket/key`, file_name is the key. -/
def mkLedgerRecord (freshFileId bucket key fileType fileHash : String)
    (fileSize rowCount ts : Nat) (status : String) (err : Option String) :
    LedgerRecord :=
  { file_id := freshFileId, file_path := bucket ++ "/" ++ key,
    file_name := key, file_type := fileType, file_hash := fileHash,
    file_size_bytes := fileSize, row_count := rowCount,
    ingestion_timestamp := ts, processing_status := status,
    error_message := err }

/-- Embedding of the body of `raw_accounts` (and, with other string
parameters, `raw_customers`). External effects are oracles: `hashOf`
maps an object key to its content hash, `parse` is the download/parse
step which may raise, `insertErr` injects a failure of the table-insert
step. `freshFileId`, `freshSchemaId` and `ts` stand for `uuid4()` and
`datetime.now()`. Returns the outcome and the final database state. -/
def rawIngest (db : RawDB) (tableName fileType bucket : String)
    (files : List S3Obj) (hashOf : String → String)
    (parse : String → Except String ParsedFile) (insertErr : Option String)
    (freshFileId freshSchemaId : String) (ts : Nat) : IngestOutcome × RawDB :=
  match files with
  | [] => (IngestOutcome.noFiles, db)
  | f :: rest =>
    let latest := latestFile f rest
    let key := latest.key
    let fileHash := hashOf key
    let fileSize := latest.size
    if checkFileProcessed db.ledger fileHash then
      (IngestOutcome.skipped fileHash, db)
    else
      match parse key with
      | Except.error e =>
          let failRec :=
            mkLedgerRecord freshFileId bucket key fileType fileHash fileSize
              0 ts "failed" (some e)
          (IngestOutcome.failed e,
           { db with ledger := recordFileMetadata db.ledger failRec })
      | Except.ok pf =>
          let tracked := trackSchema db.schemaVersions tableName pf.schema freshSchemaId
          let version := tracked.2.1
          let svs := tracked.2.2
          let tablesCreated := createTableIfMissing db.rawTables tableName
          match insertErr with
          | some e =>
              let failRec :=
                mkLedgerRecord freshFileId bucket key fileType fileHash fileSize
                  0 ts "failed" (some e)
              (IngestOutcome.failed e,
               { ledger := recordFileMetadata db.ledger failRec,
                 schemaVersions := svs, rawTables := tablesCreated })
          | none =>
              let tables := insertRows tablesCreated tableName pf.row_count
              let okRec :=
                mkLedgerRecord freshFileId bucket key fileType fileHash fileSize
                  pf.row_count ts "completed" none
              (IngestOutcome.success pf.row_count fileHash version,
               { ledger := recordFileMetadata db.ledger okRec,
                 schemaVersions := svs, rawTables := tables })

/-! ## dbt command runner (`_run_dbt_command` of the three layer
modules) -/

/-- Outcome of one subprocess invocation of dbt, as the asset modules
observe it. -/
structure CmdResult where
  returncode : Int
  stdout : String
  stderr : String
deriving DecidableEq, Repr

/-- Embedding of `_run_dbt_command`: raises when the return code is
nonzero and failure is not allowed, with the message built from the
captured stderr and stdout; the access-layer variant has no
allow_failure parameter and always passes `false` here. -/
def runDbtCommand (res : CmdResult) (allowFailure : Bool) :
    Except String CmdResult :=
  if res.returncode ≠ 0 && !allowFailure then
    Except.error ("dbt command failed: " ++ res.stderr ++ "\n" ++ res.stdout)
  else
    Except.ok res

/-- Row count a layer reports for a possibly missing table: the
`SELECT COUNT(*)` wrapped in `try/except` that leaves the count at 0
when the table is absent. -/
def countOrZero (rel : Option (List α)) : Nat :=
  match rel with
  | some rows => rows.length
  | none => 0

/-! ## Structured-layer orchestrator
(`structured_layer.run_dbt_structured`, `structured_layer._tables_exist`) -/

/-- Embedding of the structured `_tables_exist`: the
information_schema count of tables named str_accounts/str_customers in
schema structured equals 2, i.e. both exist. -/
def structuredTablesExist (strAcc strCust : Option (List String)) : Bool :=
  ((if strAcc.isSome then 1 else 0) + (if strCust.isSome then 1 else 0)) == 2

/-- The dbt command the structured layer issues on a first run. -/
def structuredFullRefreshCmd : List String :=
  ["dbt", "run", "--select", "structured.*", "--full-refresh"]

/-- The dbt command the structured layer issues on an incremental run. -/
def structuredIncrementalCmd : List String :=
  ["dbt", "run", "--select", "structured.*"]

/-- Materialization metadata of `run_dbt_structured`. `dbt_command` is
the run command issued, `none` when the run was skipped; `tests_passed`
is present only when dbt actually ran. -/
structure StructuredResult where
  status : String
  str_accounts_rows : Nat
  str_customers_rows : Nat
  new_accounts_found : Nat
  new_customers_found : Nat
  dbt_run : Bool
  dbt_command : Option (List String)
  tests_passed : Option Bool
deriving DecidableEq, Repr

/-- Embedding of `run_dbt_structured`. Database state: raw and
structured relations before the run, plus the structured relations
after the dbt run (`postStrAcc`, `postStrCust`), since dbt mutates them
externally. `depsRes`, `runRes`, `testRes` are the outcomes of the
three subprocess calls. An `Except.error` is an exception propagating
out of the asset. -/
def runDbtStructured (rawAcc rawCust strAcc strCust : Option (List String))
    (postStrAcc postStrCust : Option (List String))
    (depsRes runRes testRes : CmdResult) : Except String StructuredResult :=
  let tablesExist := structuredTablesExist strAcc strCust
  let nw := checkForNewRawData rawAcc strAcc rawCust strCust
  if tablesExist && !nw.1 then
      Except.ok
        { status := "⚠️ SKIPPED - No new data",
          str_accounts_rows := countOrZero strAcc,
          str_customers_rows := countOrZero strCust,
          new_accounts_found := 0, new_customers_found := 0,
          dbt_run := false, dbt_command := none, tests_passed := none }
    else
      match runDbtCommand depsRes false with
      | Except.error e => Except.error e
      | Except.ok _ =>
        let cmd :=
          if !tablesExist then structuredFullRefreshCmd
          else structuredIncrementalCmd
        match runDbtCommand runRes false with
        | Except.error e => Except.error e
        | Except.ok _ =>
          match runDbtCommand testRes true with
          | Except.error e => Except.error e
          | Except.ok tr =>
            Except.ok
              { status := "✓ Processed new data",
                str_accounts_rows := countOrZero postStrAcc,
                str_customers_rows := countOrZero postStrCust,
                new_accounts_found := nw.2.1,
                new_customers_found := nw.2.2,
                dbt_run := true, dbt_command := some cmd,
                tests_passed := some (tr.returncode == 0) }

/-! ## Curated-layer orchestrator (`curated_layer.run_dbt_curated`,
`curated_layer._tables_exist`, `curated_layer._get_current_counts`) -/

/-- Embedding of the curated `_tables_exist`: the catalog count of the
three curated tables is at least 3, i.e. all of dim_customer,
dim_account and fact_customer_balances exist. -/
def curatedTablesExist (dimCustomer dimAccount : Option Nat)
    (fact : Option (List String)) : Bool :=
  ((if dimCustomer.isSome then 1 else 0) + (if dimAccount.isSome then 1 else 0)
    + (if fact.isSome then 1 else 0)) ≥ 3

/-- Row count of a table abstracted to its size only, 0 when missing. -/
def sizeOrZero (rel : Option Nat) : Nat :=
  match rel with
  | some n => n
  | none => 0

/-- The dbt command the curated layer issues on a first run. -/
def curatedFullRefreshCmd : List String :=
  ["dbt", "run", "--select", "curated.*", "--full-refresh"]

/-- The dbt command the curated layer issues on an incremental run. -/
def curatedIncrementalCmd : List String :=
  ["dbt", "run", "--select", "curated.*"]

/-- Materialization metadata of `run_dbt_curated`. -/
structure CuratedResult where
  status : String
  dim_customer_rows : Nat
  dim_account_rows : Nat
  fact_customer_balances_rows : Nat
  new_records_found : Nat
  dbt_run : Bool
  dbt_command : Option (List String)
  tests_passed : Option Bool
deriving DecidableEq, Repr

/-- Embedding of `run_dbt_curated`. The dimension tables are abstracted
to their row counts; the fact table keeps its join keys for the delta
check. `post*` are the table states after the external dbt run. -/
def runDbtCurated (strAcc : Option (List StrAccountRow))
    (dimCustomer dimAccount : Option Nat) (fact : Option (List String))
    (postDimCustomer postDimAccount : Option Nat)
    (postFact : Option (List String))
    (runRes testRes : CmdResult) : Except String CuratedResult :=
  let tablesExist := curatedTablesExist dimCustomer dimAccount fact
  let nw := checkForNewStructuredData strAcc fact
  if tablesExist && !nw.1 then
      Except.ok
        { status := "⚠️ SKIPPED - No new data",
          dim_customer_rows := sizeOrZero dimCustomer,
          dim_account_rows := sizeOrZero dimAccount,
          fact_customer_balances_rows := countOrZero fact,
          new_records_found := 0,
          dbt_run := false, dbt_command := none, tests_passed := none }
    else
      let cmd :=
        if !tablesExist then curatedFullRefreshCmd else curatedIncrementalCmd
      match runDbtCommand runRes false with
      | Except.error e => Except.error e
      | Except.ok _ =>
        match runDbtCommand testRes true with
        | Except.error e => Except.error e
        | Except.ok tr =>
          Except.ok
            { status := "✓ Processed new data",
              dim_customer_rows := sizeOrZero postDimCustomer,
              dim_account_rows := sizeOrZero postDimAccount,
              fact_customer_balances_rows := countOrZero postFact,
              new_records_found := nw.2,
              dbt_run := true, dbt_command := some cmd,
              tests_passed := some (tr.returncode == 0) }

/-! ## Access-layer orchestrator (`access_layer.run_dbt_access`) -/

/-- Materialization metadata of `run_dbt_access`. -/
structure AccessResult where
  account_summary_rows : Nat
  tests_passed : Bool
deriving DecidableEq, Repr

/-- Embedding of `run_dbt_access`: build then test, both through the
access-layer `_run_dbt_command` which has no allow_failure escape, so a
failing test raises with the diagnostic output attached. -/
def runDbtAccess (summary : Option Nat) (runRes testRes : CmdResult) :
    Except String AccessResult :=
  match runDbtCommand runRes false with
  | Except.error e => Except.error e
  | Except.ok _ =>
    let summaryCount := sizeOrZero summary
    match runDbtCommand testRes false with
    | Except.error e => Except.error e
    | Except.ok tr =>
      Except.ok
        { account_summary_rows := summaryCount,
          tests_passed := tr.returncode == 0 }

/-! ## Locked-write executor (`duckdb_resource.retry_on_lock`,
`DuckDBResource.execute`, `DuckDBResource.fetch_all`,
`DuckDBResource.fetch_df`) -/

/-- Whether the character list starts with the given pattern. -/
def charsStartWith : List Char → List Char → Bool
  | _, [] => true
  | [], _ :: _ => false
  | c :: cs, p :: ps => c == p && charsStartWith cs ps

/-- Whether the character list contains the pattern as a contiguous
run. -/
def charsContain (pat : List Char) : List Char → Bool
  | [] => charsStartWith [] pat
  | c :: cs => charsStartWith (c :: cs) pat || charsContain pat cs

/-- The Python `pat in s` substring test on strings. -/
def strContainsSub (s pat : String) : Bool :=
  charsContain pat.toList s.toList

/-- An error raised by the relational engine: either a
`duckdb.IOException` with its message, or any other exception (which
the retry wrapper never catches). -/
inductive DbError where
  | ioException (msg : String)
  | otherError (msg : String)
deriving DecidableEq, Repr

/-- The condition under which `retry_on_lock` retries: the exception is
a `duckdb.IOException` whose message contains "Could not set lock". -/
def isLockConflict : DbError → Bool
  | DbError.ioException msg => strContainsSub msg "Could not set lock"
  | DbError.otherError _ => false

/-- Embedding of the `for attempt in range(max_retries)` loop of
`retry_on_lock`, recursing on the remaining iteration count `fuel`
(initially max_retries, so attempt = maxRetries - fuel). `f i` is the
outcome of the wrapped call on its i-th invocation. Returns the final
outcome together with the list of back-off sleeps performed, each
`delay * 2 ^ attempt`. The `fuel = 0` case is the unreachable trailing
`return func()` after the loop. -/
def retryAux (f : Nat → Except DbError α) (maxRetries : Nat) (delay : ℚ) :
    Nat → Except DbError α × List ℚ
  | 0 => (f maxRetries, [])
  | fuel + 1 =>
    let attempt := maxRetries - (fuel + 1)
    match f attempt with
    | Except.ok a => (Except.ok a, [])
    | Except.error e =>
      if isLockConflict e && attempt < maxRetries - 1 then
        let waitTime := delay * 2 ^ attempt
        match retryAux f maxRetries delay fuel with
        | (r, ws) => (r, waitTime :: ws)
      else
        (Except.error e, [])

/-- Embedding of `retry_on_lock(max_retries, delay)` applied to a
wrapped call `f`. -/
def retryOnLock (f : Nat → Except DbError α) (maxRetries : Nat) (delay : ℚ) :
    Except DbError α × List ℚ :=
  retryAux f maxRetries delay maxRetries

/-- Embedding of `DuckDBResource.execute`: the mutating call goes
through `retry_on_lock(max_retries=5, delay=1.0)` and opens its
connection with read_only=False (the first argument fed to the engine
oracle). -/
def duckExecute (engine : Bool → Nat → Except DbError Unit) :
    Except DbError Unit × List ℚ :=
  retryOnLock (fun attempt => engine false attempt) 5 1

/-- Embedding of `DuckDBResource.fetch_all` (and `fetch_df`, identical
in structure): a single engine call with read_only=True and no retry
wrapper around it. -/
def duckFetchAll (engine : Bool → Except DbError α) : Except DbError α :=
  engine true

/-! ## Ledger invariant and concrete fixtures -/

/-- The uniqueness invariant `UNIQUE(file_hash)` of
`raw.file_ingestion_metadata`: no two ledger rows share a content
hash. -/
def atMostOnePerHash (ledger : List LedgerRecord) : Prop :=
  ledger.Pairwise (fun a b => a.file_hash ≠ b.file_hash)

/-- Concrete completed ledger row used to instantiate theorems. -/
def wLedgerCompleted : LedgerRecord :=
  mkLedgerRecord "fid-0" "landing" "accounts.csv" "accounts" "h1" 10 3 0
    "completed" none

/-- Concrete failed ledger row used to instantiate theorems. -/
def wLedgerFailed : LedgerRecord :=
  mkLedgerRecord "fid-1" "landing" "accounts.csv" "accounts" "h2" 10 0 0
    "failed" (some "parse error")

/-- Concrete object-store listing entry. -/
def wObj : S3Obj := { key := "accounts.csv", size := 10, last_modified := 5 }

/-- Database whose ledger already holds hash h1 as completed. -/
def wDBCompleted : RawDB :=
  { ledger := [wLedgerCompleted], schemaVersions := [], rawTables := [] }

/-- Database whose ledger holds hash h1 only as a failed attempt. -/
def wDBFailed : RawDB :=
  { ledger := [mkLedgerRecord "fid-2" "landing" "accounts.csv" "accounts" "h1"
      10 0 0 "failed" (some "boom")],
    schemaVersions := [], rawTables := [] }

/-- Hash oracle mapping every key to h1. -/
def wHashOf : String → String := fun _ => "h1"

/-- Concrete observed schema. -/
def wSchema : List ColumnDef := [{ name := "AccountID", dtype := "int64", nullable := false }]

/-- A structurally different observed schema. -/
def wSchema2 : List ColumnDef :=
  [{ name := "AccountID", dtype := "int64", nullable := false },
   { name := "Balance", dtype := "float64", nullable := true }]

/-- Latest recorded schema version row for the fixture table. -/
def wPrevSV : SchemaVersionRec :=
  { schema_id := "sid-1", table_name := "raw_accounts", schema_version := 1,
    column_definitions := wSchema, previous_version_id := none,
    change_description := "Initial schema" }

/-- Parse oracle that succeeds with 3 rows of the fixture schema. -/
def wParseOk : String → Except String ParsedFile :=
  fun _ => Except.ok { row_count := 3, schema := wSchema }

/-- Parse oracle that raises. -/
def wParseErr : String → Except String ParsedFile :=
  fun _ => Except.error "parse error"

/-- Successful subprocess outcome. -/
def wCmdOk : CmdResult := { returncode := 0, stdout := "ok", stderr := "" }

/-- Failing subprocess outcome with diagnostic output. -/
def wCmdFail : CmdResult := { returncode := 1, stdout := "out", stderr := "err" }

/-- A lock-conflict error message as DuckDB emits it. -/
def wLockMsg : String :=
  "IO Error: Could not set lock on file banking.duckdb"

/-- Engine oracle that always reports a lock conflict. -/
def wEngineLock : Bool → Nat → Except DbError Unit :=
  fun _ _ => Except.error (DbError.ioException wLockMsg)

/-- Engine oracle that always raises a non-lock error. -/
def wEngineOther : Bool → Nat → Except DbError Unit :=
  fun _ _ => Except.error (DbError.otherError "constraint violation")

/-- Engine oracle that succeeds at once. -/
def wEngineOk : Bool → Nat → Except DbError Unit := fun _ _ => Except.ok ()

/-- Read oracle returning a fixed row list, recording the read_only
mode it was invoked with. -/
def wReadEngine : Bool → Except DbError (List Bool) :=
  fun readOnly => Except.ok [readOnly]

/-! ## Shared helper lemmas -/

/-- Splitting a list by a predicate preserves its length. -/
theorem length_filter_not_add_length_filter (p : α → Bool) (l : List α) :
    (l.filter (fun a => !(p a))).length + (l.filter p).length = l.length := by
  induction l with
  | nil => rfl
  | cons a l ih => by_cases h : p a <;> simp [h, ← ih] <;> omega

/-- The upsert update clause never changes the content hash of a row. -/
theorem ledgerUpdate_hash (newRec r : LedgerRecord) :
    (ledgerUpdate newRec r).file_hash = r.file_hash := by
  unfold ledgerUpdate; split <;> rfl

/-- After `recordFileMetadata`, some row carries the hash, status and
error message of the new record; its row count is that of the new
record provided every pre-existing row with that hash already had that
row count. -/
theorem mem_recordFileMetadata_self (ledger : List LedgerRecord) (r : LedgerRecord)
    (hrow : ∀ x ∈ ledger, x.file_hash = r.file_hash → x.row_count = r.row_count) :
    ∃ x ∈ recordFileMetadata ledger r,
      x.file_hash = r.file_hash ∧ x.processing_status = r.processing_status
      ∧ x.error_message = r.error_message ∧ x.row_count = r.row_count := by
  unfold recordFileMetadata
  by_cases hany : ledger.any (fun x => x.file_hash == r.file_hash) = true
  · simp only [hany, if_true]
    obtain ⟨x, hx, hhash⟩ := List.any_eq_true.mp hany
    refine ⟨ledgerUpdate r x, List.mem_map_of_mem _ hx, ?_⟩
    have hh : x.file_hash = r.file_hash := by simpa using hhash
    unfold ledgerUpdate
    simp [hh, hrow x hx hh]
  · rw [Bool.not_eq_true] at hany
    simp only [hany, Bool.false_eq_true, if_false]
    exact ⟨r, by simp, rfl, rfl, rfl, rfl⟩

/-- When the processed check is negative, no ledger row carries the
hash with status completed. -/
theorem checkFileProcessed_eq_false (ledger : List LedgerRecord) (h : String)
    (hf : checkFileProcessed ledger h = false) :
    ∀ x ∈ ledger, x.file_hash = h → x.processing_status ≠ "completed" := by
  intro x hx hh hc
  have : checkFileProcessed ledger h = true := by
    unfold checkFileProcessed
    rw [decide_eq_true_eq, gt_iff_lt, List.length_pos_iff_exists_mem]
    exact ⟨x, List.mem_filter.mpr ⟨hx, by simp [hh, hc]⟩⟩
  rw [this] at hf
  exact absurd hf (by simp)

/-! ## Claims -/

/-- C1. Ingestion is idempotent at the content level:
`_check_file_processed` returns true exactly when a ledger record with
the given hash and status completed exists (in particular a hash
recorded only as failed is not considered processed), and when the
incoming content hash is already processed the asset returns the skip
outcome carrying that hash and leaves the whole database state —
ledger, schema versions and raw tables — unchanged. -/
theorem claim_C1 :
    (∀ (ledger : List LedgerRecord) (h : String),
        checkFileProcessed ledger h = true ↔
          ∃ r ∈ ledger, r.file_hash = h ∧ r.processing_status = "completed") ∧
    (∀ (db : RawDB) (tableName fileType bucket : String)
        (f : S3Obj) (rest : List S3Obj) (hashOf : String → String)
        (parse : String → Except String ParsedFile) (insertErr : Option String)
        (fid sid : String) (ts : Nat),
        checkFileProcessed db.ledger (hashOf (latestFile f rest).key) = true →
        rawIngest db tableName fileType bucket (f :: rest) hashOf parse insertErr
            fid sid ts
          = (IngestOutcome.skipped (hashOf (latestFile f rest).key), db)) := by
  constructor
  · intro ledger h
    simp [checkFileProcessed, List.length_pos, List.filter_eq_nil_iff]
  · intro db tableName fileType bucket f rest hashOf parse insertErr fid sid ts hproc
    simp [rawIngest, hproc]

/-- C1 witness: hash h1 is recorded as completed in the fixture ledger,
and re-ingesting a file hashing to h1 yields the skip outcome and the
unchanged database. -/
theorem claim_C1_witness :
    rawIngest wDBCompleted "raw_accounts" "accounts" "landing" [wObj] wHashOf
        wParseOk none "fid-9" "sid-9" 1
      = (IngestOutcome.skipped "h1", wDBCompleted) :=
  claim_C1.2 wDBCompleted "raw_accounts" "accounts" "landing" wObj [] wHashOf
    wParseOk none "fid-9" "sid-9" 1 (by decide)

/-- C2. Delta correctness: on existing source and target relations the
new-work count is N − M (N source rows, M of them with a join-key match
in the target, computed by the NOT EXISTS anti-join); on a missing
target all N source rows count as new instead of an error; and each
detector reports has_new exactly when its new-work count is positive
(for the structured detector, the sum of the two per-table counts). -/
theorem claim_C2 :
    (∀ (s t : List String),
        checkForNewData (some s) (some t)
          = s.length - (s.filter (fun k => t.contains k)).length) ∧
    (∀ s : List String, checkForNewData (some s) none = s.length) ∧
    (∀ (rows : List StrAccountRow) (fact : Option (List String)),
        checkForNewStructuredData (some rows) fact
          = (decide (0 < checkForNewData
                (some ((rows.filter (fun r => r.account_type == "savings")).map
                  (fun r => r.account_id))) fact),
             checkForNewData
                (some ((rows.filter (fun r => r.account_type == "savings")).map
                  (fun r => r.account_id))) fact)) ∧
    (∀ (strAcc : Option (List StrAccountRow)) (fact : Option (List String)),
        (checkForNewStructuredData strAcc fact).1 = true
          ↔ 0 < (checkForNewStructuredData strAcc fact).2) ∧
    (∀ (rawAcc strAcc rawCust strCust : Option (List String)),
        (checkForNewRawData rawAcc strAcc rawCust strCust).1 = true
          ↔ 0 < (checkForNewRawData rawAcc strAcc rawCust strCust).2.1
              + (checkForNewRawData rawAcc strAcc rawCust strCust).2.2) := by
  refine ⟨?_, ?_, ?_, ?_, ?_⟩
  · intro s t
    have hsplit := length_filter_not_add_length_filter (fun k => t.contains k) s
    simp only [checkForNewData, antiJoinCount, newCountFallback]
    omega
  · intro s
    simp [checkForNewData, antiJoinCount, countSource, newCountFallback]
  · intro rows fact
    rfl
  · intro strAcc fact
    simp [checkForNewStructuredData]
  · intro rawAcc strAcc rawCust strCust
    simp only [checkForNewRawData]
    simp only [Bool.or_eq_true, decide_eq_true_eq]
    omega

/-- C2 witness: three source keys of which one matches give new_count 2;
with the target missing all three count as new. -/
theorem claim_C2_witness :
    checkForNewData (some ["a", "b", "c"]) (some ["b"]) = 2 ∧
    checkForNewData (some ["a", "b", "c"]) none = 3 :=
  ⟨claim_C2.1 ["a", "b", "c"] ["b"], claim_C2.2.1 ["a", "b", "c"]⟩

/-- C3. Mode selection, for both the structured and the curated layer:
when the target tables do not all exist the build runs with the
full-refresh dbt command; when they exist and the new-work count is
zero the invocation skips the build and terminates successfully,
reporting current row counts, zero new records and dbt_run = false;
when they exist and the new-work count is positive the build runs with
the incremental dbt command. -/
theorem claim_C3 :
    (∀ (rawAcc rawCust strAcc strCust postA postC : Option (List String))
        (depsRes runRes testRes : CmdResult),
        structuredTablesExist strAcc strCust = false →
        depsRes.returncode = 0 → runRes.returncode = 0 →
        ∃ r, runDbtStructured rawAcc rawCust strAcc strCust postA postC
              depsRes runRes testRes = Except.ok r
          ∧ r.dbt_command = some structuredFullRefreshCmd ∧ r.dbt_run = true) ∧
    (∀ (rawAcc rawCust strAcc strCust postA postC : Option (List String))
        (depsRes runRes testRes : CmdResult),
        structuredTablesExist strAcc strCust = true →
        checkForNewData rawAcc strAcc = 0 → checkForNewData rawCust strCust = 0 →
        runDbtStructured rawAcc rawCust strAcc strCust postA postC
            depsRes runRes testRes
          = Except.ok
              { status := "⚠️ SKIPPED - No new data",
                str_accounts_rows := countOrZero strAcc,
                str_customers_rows := countOrZero strCust,
                new_accounts_found := 0, new_customers_found := 0,
                dbt_run := false, dbt_command := none, tests_passed := none }) ∧
    (∀ (rawAcc rawCust strAcc strCust postA postC : Option (List String))
        (depsRes runRes testRes : CmdResult),
        structuredTablesExist strAcc strCust = true →
        (checkForNewRawData rawAcc strAcc rawCust strCust).1 = true →
        depsRes.returncode = 0 → runRes.returncode = 0 →
        ∃ r, runDbtStructured rawAcc rawCust strAcc strCust postA postC
              depsRes runRes testRes = Except.ok r
          ∧ r.dbt_command = some structuredIncrementalCmd ∧ r.dbt_run = true) ∧
    (∀ (strAcc : Option (List StrAccountRow)) (dimCustomer dimAccount : Option Nat)
        (fact : Option (List String)) (postDC postDA : Option Nat)
        (postFact : Option (List String)) (runRes testRes : CmdResult),
        curatedTablesExist dimCustomer dimAccount fact = false →
        runRes.returncode = 0 →
        ∃ r, runDbtCurated strAcc dimCustomer dimAccount fact postDC postDA
              postFact runRes testRes = Except.ok r
          ∧ r.dbt_command = some curatedFullRefreshCmd ∧ r.dbt_run = true) ∧
    (∀ (strAcc : Option (List StrAccountRow)) (dimCustomer dimAccount : Option Nat)
        (fact : Option (List String)) (postDC postDA : Option Nat)
        (postFact : Option (List String)) (runRes testRes : CmdResult),
        curatedTablesExist dimCustomer dimAccount fact = true →
        (checkForNewStructuredData strAcc fact).2 = 0 →
        runDbtCurated strAcc dimCustomer dimAccount fact postDC postDA
            postFact runRes testRes
          = Except.ok
              { status := "⚠️ SKIPPED - No new data",
                dim_customer_rows := sizeOrZero dimCustomer,
                dim_account_rows := sizeOrZero dimAccount,
                fact_customer_balances_rows := countOrZero fact,
                new_records_found := 0,
                dbt_run := false, dbt_command := none, tests_passed := none }) ∧
    (∀ (strAcc : Option (List StrAccountRow)) (dimCustomer dimAccount : Option Nat)
        (fact : Option (List String)) (postDC postDA : Option Nat)
        (postFact : Option (List String)) (runRes testRes : CmdResult),
        curatedTablesExist dimCustomer dimAccount fact = true →
        (checkForNewStructuredData strAcc fact).1 = true →
        runRes.returncode = 0 →
        ∃ r, runDbtCurated strAcc dimCustomer dimAccount fact postDC postDA
              postFact runRes testRes = Except.ok r
          ∧ r.dbt_command = some curatedIncrementalCmd ∧ r.dbt_run = true) := by
  refine ⟨?_, ?_, ?_, ?_, ?_, ?_⟩
  · intro rawAcc rawCust strAcc strCust postA postC depsRes runRes testRes
      hte hdeps hrun
    refine ⟨{ status := "✓ Processed new data",
              str_accounts_rows := countOrZero postA,
              str_customers_rows := countOrZero postC,
              new_accounts_found := checkForNewData rawAcc strAcc,
              new_customers_found := checkForNewData rawCust strCust,
              dbt_run := true, dbt_command := some structuredFullRefreshCmd,
              tests_passed := some (testRes.returncode == 0) }, ?_, rfl, rfl⟩
    simp [runDbtStructured, checkForNewRawData, hte, runDbtCommand, hdeps, hrun]
  · intro rawAcc rawCust strAcc strCust postA postC depsRes runRes testRes
      hte hna hnc
    simp [runDbtStructured, checkForNewRawData, hna, hnc, hte]
  · intro rawAcc rawCust strAcc strCust postA postC depsRes runRes testRes
      hte hnew hdeps hrun
    refine ⟨{ status := "✓ Processed new data",
              str_accounts_rows := countOrZero postA,
              str_customers_rows := countOrZero postC,
              new_accounts_found := checkForNewData rawAcc strAcc,
              new_customers_found := checkForNewData rawCust strCust,
              dbt_run := true, dbt_command := some structuredIncrementalCmd,
              tests_passed := some (testRes.returncode == 0) }, ?_, rfl, rfl⟩
    simp only [checkForNewRawData] at hnew
    simp [runDbtStructured, checkForNewRawData, hte, runDbtCommand, hdeps, hrun,
      hnew]
  · intro strAcc dimCustomer dimAccount fact postDC postDA postFact runRes
      testRes hte hrun
    refine ⟨{ status := "✓ Processed new data",
              dim_customer_rows := sizeOrZero postDC,
              dim_account_rows := sizeOrZero postDA,
              fact_customer_balances_rows := countOrZero postFact,
              new_records_found := (checkForNewStructuredData strAcc fact).2,
              dbt_run := true, dbt_command := some curatedFullRefreshCmd,
              tests_passed := some (testRes.returncode == 0) }, ?_, rfl, rfl⟩
    simp [runDbtCurated, checkForNewStructuredData, hte, runDbtCommand, hrun]
  · intro strAcc dimCustomer dimAccount fact postDC postDA postFact runRes
      testRes hte hcount
    simp only [checkForNewStructuredData] at hcount
    simp [runDbtCurated, checkForNewStructuredData, hte, hcount]
  · intro strAcc dimCustomer dimAccount fact postDC postDA postFact runRes
      testRes hte hnew hrun
    refine ⟨{ status := "✓ Processed new data",
              dim_customer_rows := sizeOrZero postDC,
              dim_account_rows := sizeOrZero postDA,
              fact_customer_balances_rows := countOrZero postFact,
              new_records_found := (checkForNewStructuredData strAcc fact).2,
              dbt_run := true, dbt_command := some curatedIncrementalCmd,
              tests_passed := some (testRes.returncode == 0) }, ?_, rfl, rfl⟩
    simp only [checkForNewStructuredData] at hnew
    simp [runDbtCurated, checkForNewStructuredData, hte, runDbtCommand, hrun,
      hnew]

/-- C3 witness: with no structured tables the fixture run uses the
full-refresh command; with both tables present and no new raw rows the
fixture run is skipped with dbt_run = false. -/
theorem claim_C3_witness :
    (∃ r, runDbtStructured (some ["a1"]) (some ["c1"]) none none
          (some ["a1"]) (some ["c1"]) wCmdOk wCmdOk wCmdOk = Except.ok r
      ∧ r.dbt_command = some structuredFullRefreshCmd ∧ r.dbt_run = true) ∧
    runDbtStructured (some ["a1"]) (some ["c1"]) (some ["a1"]) (some ["c1"])
        (some ["a1"]) (some ["c1"]) wCmdOk wCmdOk wCmdOk
      = Except.ok
          { status := "⚠️ SKIPPED - No new data",
            str_accounts_rows := 1, str_customers_rows := 1,
            new_accounts_found := 0, new_customers_found := 0,
            dbt_run := false, dbt_command := none, tests_passed := none } :=
  ⟨claim_C3.1 (some ["a1"]) (some ["c1"]) none none (some ["a1"]) (some ["c1"])
      wCmdOk wCmdOk wCmdOk (by decide) (by decide) (by decide),
   claim_C3.2.1 (some ["a1"]) (some ["c1"]) (some ["a1"]) (some ["c1"])
      (some ["a1"]) (some ["c1"]) wCmdOk wCmdOk wCmdOk (by decide) (by decide)
      (by decide)⟩

/-- C4. Schema version tracking: submitting a schema structurally equal
(order-sensitive list equality of name/type/nullable triples) to the
latest recorded version reports changed = false and writes nothing;
submitting a different schema appends exactly one new version numbered
previous + 1 with previous_version_id pointing at the prior version row
and description "Schema change detected" (the prior version number
being at least 1, as every recorded version is); with no recorded
version, version 1 is written with a null previous link and description
"Initial schema". -/
theorem claim_C4 :
    (∀ (svs : List SchemaVersionRec) (t : String) (schema : List ColumnDef)
        (fid : String) (prev : SchemaVersionRec),
        latestSchemaVersion svs t = some prev →
        prev.column_definitions = schema →
        trackSchema svs t schema fid = (false, prev.schema_version, svs)) ∧
    (∀ (svs : List SchemaVersionRec) (t : String) (schema : List ColumnDef)
        (fid : String) (prev : SchemaVersionRec),
        latestSchemaVersion svs t = some prev →
        prev.column_definitions ≠ schema →
        1 ≤ prev.schema_version →
        trackSchema svs t schema fid
          = (true, prev.schema_version + 1,
             svs ++ [{ schema_id := fid, table_name := t,
                       schema_version := prev.schema_version + 1,
                       column_definitions := schema,
                       previous_version_id := some prev.schema_id,
                       change_description := "Schema change detected" }])) ∧
    (∀ (svs : List SchemaVersionRec) (t : String) (schema : List ColumnDef)
        (fid : String),
        latestSchemaVersion svs t = none →
        trackSchema svs t schema fid
          = (true, 1,
             svs ++ [{ schema_id := fid, table_name := t, schema_version := 1,
                       column_definitions := schema,
                       previous_version_id := none,
                       change_description := "Initial schema" }])) := by
  refine ⟨?_, ?_, ?_⟩
  · intro svs t schema fid prev hlatest heq
    simp [trackSchema, checkSchemaChange, hlatest, heq]
  · intro svs t schema fid prev hlatest hne hver
    have hv1 : (prev.schema_version + 1 == 1) = false := by
      simp; omega
    simp [trackSchema, checkSchemaChange, recordSchemaVersion, hlatest, hne, hv1]
  · intro svs t schema fid hlatest
    simp [trackSchema, checkSchemaChange, recordSchemaVersion, hlatest]

/-- C4 witness: resubmitting the fixture schema writes nothing; a
two-column schema after the one-column version 1 writes version 2
linked to sid-1. -/
theorem claim_C4_witness :
    trackSchema [wPrevSV] "raw_accounts" wSchema "sid-2"
      = (false, 1, [wPrevSV]) ∧
    trackSchema [wPrevSV] "raw_accounts" wSchema2 "sid-2"
      = (true, 2,
         [wPrevSV,
          { schema_id := "sid-2", table_name := "raw_accounts",
            schema_version := 2, column_definitions := wSchema2,
            previous_version_id := some "sid-1",
            change_description := "Schema change detected" }]) :=
  ⟨claim_C4.1 [wPrevSV] "raw_accounts" wSchema "sid-2" wPrevSV (by decide) rfl,
   claim_C4.2.1 [wPrevSV] "raw_accounts" wSchema2 "sid-2" wPrevSV (by decide)
     (by decide) (by decide)⟩

/-- C5. Failure isolation by layer tier: a structured or curated run
whose build succeeds but whose dbt test step returns nonzero still
completes successfully with tests_passed = false in its metadata,
while the access (terminal) layer raises on a failing test step with
the captured stderr and stdout attached, failing the run. -/
theorem claim_C5 :
    (∀ (rawAcc rawCust strAcc strCust postA postC : Option (List String))
        (depsRes runRes testRes : CmdResult),
        (structuredTablesExist strAcc strCust = false
          ∨ (checkForNewRawData rawAcc strAcc rawCust strCust).1 = true) →
        depsRes.returncode = 0 → runRes.returncode = 0 →
        testRes.returncode ≠ 0 →
        ∃ r, runDbtStructured rawAcc rawCust strAcc strCust postA postC
              depsRes runRes testRes = Except.ok r
          ∧ r.tests_passed = some false ∧ r.dbt_run = true) ∧
    (∀ (strAcc : Option (List StrAccountRow)) (dimCustomer dimAccount : Option Nat)
        (fact : Option (List String)) (postDC postDA : Option Nat)
        (postFact : Option (List String)) (runRes testRes : CmdResult),
        (curatedTablesExist dimCustomer dimAccount fact = false
          ∨ (checkForNewStructuredData strAcc fact).1 = true) →
        runRes.returncode = 0 → testRes.returncode ≠ 0 →
        ∃ r, runDbtCurated strAcc dimCustomer dimAccount fact postDC postDA
              postFact runRes testRes = Except.ok r
          ∧ r.tests_passed = some false ∧ r.dbt_run = true) ∧
    (∀ (summary : Option Nat) (runRes testRes : CmdResult),
        runRes.returncode = 0 → testRes.returncode ≠ 0 →
        runDbtAccess summary runRes testRes
          = Except.error
              ("dbt command failed: " ++ testRes.stderr ++ "\n" ++ testRes.stdout)) := by
  refine ⟨?_, ?_, ?_⟩
  · intro rawAcc rawCust strAcc strCust postA postC depsRes runRes testRes
      hcond hdeps hrun htest
    have hskip : (structuredTablesExist strAcc strCust
        && !(checkForNewRawData rawAcc strAcc rawCust strCust).1) = false := by
      rcases hcond with h | h <;> simp [h]
    refine ⟨{ status := "✓ Processed new data",
              str_accounts_rows := countOrZero postA,
              str_customers_rows := countOrZero postC,
              new_accounts_found := (checkForNewRawData rawAcc strAcc rawCust strCust).2.1,
              new_customers_found := (checkForNewRawData rawAcc strAcc rawCust strCust).2.2,
              dbt_run := true,
              dbt_command := some (if !structuredTablesExist strAcc strCust
                then structuredFullRefreshCmd else structuredIncrementalCmd),
              tests_passed := some (testRes.returncode == 0) }, ?_, ?_, rfl⟩
    · simp only [runDbtStructured, hskip, Bool.false_eq_true, if_false]
      simp [runDbtCommand, hdeps, hrun]
    · simp [htest]
  · intro strAcc dimCustomer dimAccount fact postDC postDA postFact runRes
      testRes hcond hrun htest
    have hskip : (curatedTablesExist dimCustomer dimAccount fact
        && !(checkForNewStructuredData strAcc fact).1) = false := by
      rcases hcond with h | h <;> simp [h]
    refine ⟨{ status := "✓ Processed new data",
              dim_customer_rows := sizeOrZero postDC,
              dim_account_rows := sizeOrZero postDA,
              fact_customer_balances_rows := countOrZero postFact,
              new_records_found := (checkForNewStructuredData strAcc fact).2,
              dbt_run := true,
              dbt_command := some (if !curatedTablesExist dimCustomer dimAccount fact
                then curatedFullRefreshCmd else curatedIncrementalCmd),
              tests_passed := some (testRes.returncode == 0) }, ?_, ?_, rfl⟩
    · simp only [runDbtCurated, hskip, Bool.false_eq_true, if_false]
      simp [runDbtCommand, hrun]
    · simp [htest]
  · intro summary runRes testRes hrun htest
    simp [runDbtAccess, runDbtCommand, hrun, htest]

/-- C5 witness: on the fixture run with a failing test step, the
structured layer returns success with tests_passed = false while the
access layer raises with the diagnostic output. -/
theorem claim_C5_witness :
    (∃ r, runDbtStructured (some ["a1"]) (some ["c1"]) none none
          (some ["a1"]) (some ["c1"]) wCmdOk wCmdOk wCmdFail = Except.ok r
      ∧ r.tests_passed = some false ∧ r.dbt_run = true) ∧
    runDbtAccess (some 5) wCmdOk wCmdFail
      = Except.error "dbt command failed: err\nout" :=
  ⟨claim_C5.1 (some ["a1"]) (some ["c1"]) none none (some ["a1"]) (some ["c1"])
      wCmdOk wCmdOk wCmdFail (Or.inl (by decide)) (by decide) (by decide)
      (by decide),
   claim_C5.2.2 (some 5) wCmdOk wCmdFail (by decide) (by decide)⟩

/-- C6. Ledger upsert semantics: with no existing record for the hash,
`_record_file_metadata` appends exactly the one new row; with an
existing record it maps the update clause over the table — same length,
rows with other hashes untouched — and the update clause changes only
processing_status, error_message and ingestion_timestamp, preserving
file_id, file_path, file_name, file_type, file_size_bytes and
row_count; the at-most-one-record-per-hash invariant is preserved. -/
theorem claim_C6 :
    (∀ (ledger : List LedgerRecord) (r : LedgerRecord),
        ledger.any (fun x => x.file_hash == r.file_hash) = false →
        recordFileMetadata ledger r = ledger ++ [r]) ∧
    (∀ (ledger : List LedgerRecord) (r : LedgerRecord),
        ledger.any (fun x => x.file_hash == r.file_hash) = true →
        recordFileMetadata ledger r = ledger.map (ledgerUpdate r)
          ∧ (recordFileMetadata ledger r).length = ledger.length) ∧
    (∀ (r x : LedgerRecord),
        (ledgerUpdate r x).file_id = x.file_id
        ∧ (ledgerUpdate r x).file_path = x.file_path
        ∧ (ledgerUpdate r x).file_name = x.file_name
        ∧ (ledgerUpdate r x).file_type = x.file_type
        ∧ (ledgerUpdate r x).file_hash = x.file_hash
        ∧ (ledgerUpdate r x).file_size_bytes = x.file_size_bytes
        ∧ (ledgerUpdate r x).row_count = x.row_count) ∧
    (∀ (r x : LedgerRecord), x.file_hash ≠ r.file_hash → ledgerUpdate r x = x) ∧
    (∀ (ledger : List LedgerRecord) (r : LedgerRecord),
        atMostOnePerHash ledger → atMostOnePerHash (recordFileMetadata ledger r)) := by
  refine ⟨?_, ?_, ?_, ?_, ?_⟩
  · intro ledger r hany
    simp [recordFileMetadata, hany]
  · intro ledger r hany
    constructor
    · simp [recordFileMetadata, hany]
    · simp [recordFileMetadata, hany]
  · intro r x
    unfold ledgerUpdate
    split <;> simp
  · intro r x hne
    simp [ledgerUpdate, hne]
  · intro ledger r hp
    unfold recordFileMetadata
    by_cases hany : ledger.any (fun x => x.file_hash == r.file_hash) = true
    · simp only [hany, if_true]
      unfold atMostOnePerHash at hp ⊢
      refine List.Pairwise.map _ ?_ hp
      intro a b hab
      rw [ledgerUpdate_hash, ledgerUpdate_hash]
      exact hab
    · rw [Bool.not_eq_true] at hany
      simp only [hany, Bool.false_eq_true, if_false]
      unfold atMostOnePerHash at hp ⊢
      rw [List.pairwise_append]
      refine ⟨hp, by simp, ?_⟩
      intro a ha b hb
      simp only [List.mem_singleton] at hb
      subst hb
      simp only [List.any_eq_false] at hany
      intro hcontra
      have := hany a ha
      simp [hcontra] at this

/-- C6 witness: upserting a retry of hash h1 over the fixture ledger
updates the one existing row in place, keeping its file_id and adding
no row. -/
theorem claim_C6_witness :
    recordFileMetadata [wLedgerCompleted]
        (mkLedgerRecord "fid-7" "landing" "accounts.csv" "accounts" "h1" 10 0 2
          "failed" (some "late failure"))
      = [wLedgerCompleted].map
          (ledgerUpdate (mkLedgerRecord "fid-7" "landing" "accounts.csv"
            "accounts" "h1" 10 0 2 "failed" (some "late failure")))
    ∧ (recordFileMetadata [wLedgerCompleted]
        (mkLedgerRecord "fid-7" "landing" "accounts.csv" "accounts" "h1" 10 0 2
          "failed" (some "late failure"))).length = 1 :=
  claim_C6.2.1 [wLedgerCompleted]
    (mkLedgerRecord "fid-7" "landing" "accounts.csv" "accounts" "h1" 10 0 2
      "failed" (some "late failure")) (by decide)

/-- C7. Locked-write retry discipline: a mutating call through
`DuckDBResource.execute` that succeeds at once performs no sleep; a
non-lock error propagates immediately without retry; persistent lock
conflicts are retried with exponential backoff — sleeps of 1, 2, 4 and
8 seconds, the base delay 1.0 doubled per attempt — over the bounded
budget of 5 attempts, after which the last lock error propagates; and
reads (`fetch_all` / `fetch_df`) are a single unwrapped engine call in
read-only mode. -/
theorem claim_C7 :
    (∀ (engine : Bool → Nat → Except DbError Unit),
        engine false 0 = Except.ok () → duckExecute engine = (Except.ok (), [])) ∧
    (∀ (engine : Bool → Nat → Except DbError Unit) (e : DbError),
        engine false 0 = Except.error e → isLockConflict e = false →
        duckExecute engine = (Except.error e, [])) ∧
    (∀ (engine : Bool → Nat → Except DbError Unit) (es : Nat → DbError),
        (∀ i, i < 5 → engine false i = Except.error (es i)) →
        (∀ i, i < 5 → isLockConflict (es i) = true) →
        duckExecute engine = (Except.error (es 4), [1, 2, 4, 8])) ∧
    (∀ (α : Type) (engine : Bool → Except DbError α),
        duckFetchAll engine = engine true) := by
  refine ⟨?_, ?_, ?_, ?_⟩
  · intro engine h
    simp [duckExecute, retryOnLock, retryAux, h]
  · intro engine e h hlock
    simp [duckExecute, retryOnLock, retryAux, h, hlock]
  · intro engine es h l
    have h0 := h 0 (by norm_num)
    have h1 := h 1 (by norm_num)
    have h2 := h 2 (by norm_num)
    have h3 := h 3 (by norm_num)
    have h4 := h 4 (by norm_num)
    have l0 := l 0 (by norm_num)
    have l1 := l 1 (by norm_num)
    have l2 := l 2 (by norm_num)
    have l3 := l 3 (by norm_num)
    have l4 := l 4 (by norm_num)
    simp [duckExecute, retryOnLock, retryAux, h0, h1, h2, h3, h4,
      l0, l1, l2, l3, l4]
    norm_num
  · intro α engine
    rfl

/-- C7 witness: the always-lock-conflicting engine exhausts 5 attempts
sleeping 1, 2, 4, 8 seconds and propagates the lock error; the
non-lock error propagates with no sleep; a read invokes the engine once
in read-only mode. -/
theorem claim_C7_witness :
    duckExecute wEngineLock
      = (Except.error (DbError.ioException wLockMsg), [1, 2, 4, 8])
    ∧ duckExecute wEngineOther
      = (Except.error (DbError.otherError "constraint violation"), [])
    ∧ duckFetchAll wReadEngine = Except.ok [true] :=
  ⟨claim_C7.2.2.1 wEngineLock (fun _ => DbError.ioException wLockMsg)
      (fun _ _ => rfl)
      (fun _ _ => by
        show isLockConflict (DbError.ioException wLockMsg) = true
        decide),
   claim_C7.2.1 wEngineOther (DbError.otherError "constraint violation") rfl
      (by decide),
   claim_C7.2.2.2 (List Bool) wReadEngine⟩

/-- C8. Failed ingestions are auditable: when the hash gate is passed
and the attempt then raises — at the download/parse step or at the
table-insert step — the asset re-raises (failed outcome carrying the
message) and the final ledger holds a row with that content hash,
status failed, the exception message as error_message and row_count 0.
The row-count hypothesis is the ledger invariant maintained by the
writers: non-completed rows were recorded with row_count 0. -/
theorem claim_C8 :
    ∀ (db : RawDB) (tableName fileType bucket : String)
      (f : S3Obj) (rest : List S3Obj) (hashOf : String → String)
      (parse : String → Except String ParsedFile) (insertErr : Option String)
      (fid sid : String) (ts : Nat) (e : String),
      checkFileProcessed db.ledger (hashOf (latestFile f rest).key) = false →
      (∀ x ∈ db.ledger, x.processing_status = "completed" ∨ x.row_count = 0) →
      (parse (latestFile f rest).key = Except.error e
        ∨ (insertErr = some e
            ∧ ∃ pf, parse (latestFile f rest).key = Except.ok pf)) →
      (rawIngest db tableName fileType bucket (f :: rest) hashOf parse insertErr
          fid sid ts).1 = IngestOutcome.failed e
      ∧ ∃ x ∈ (rawIngest db tableName fileType bucket (f :: rest) hashOf parse
            insertErr fid sid ts).2.ledger,
          x.file_hash = hashOf (latestFile f rest).key
          ∧ x.processing_status = "failed" ∧ x.error_message = some e
          ∧ x.row_count = 0 := by
  intro db tableName fileType bucket f rest hashOf parse insertErr fid sid ts e
    hproc hinv hcase
  have hrow : ∀ x ∈ db.ledger,
      x.file_hash = hashOf (latestFile f rest).key → x.row_count = 0 := by
    intro x hx hh
    rcases hinv x hx with h | h
    · exact absurd h (checkFileProcessed_eq_false db.ledger _ hproc x hx hh)
    · exact h
  rcases hcase with hparse | ⟨hins, pf, hparse⟩
  · have hres : rawIngest db tableName fileType bucket (f :: rest) hashOf parse
        insertErr fid sid ts
        = (IngestOutcome.failed e,
           { db with
             ledger :=
               recordFileMetadata db.ledger
                 (mkLedgerRecord fid bucket (latestFile f rest).key fileType
                   (hashOf (latestFile f rest).key) (latestFile f rest).size
                   0 ts "failed" (some e)) }) := by
      simp [rawIngest, hproc, hparse]
    rw [hres]
    exact ⟨rfl, mem_recordFileMetadata_self db.ledger _ hrow⟩
  · subst hins
    have hres : rawIngest db tableName fileType bucket (f :: rest) hashOf parse
        (some e) fid sid ts
        = (IngestOutcome.failed e,
           { ledger :=
               recordFileMetadata db.ledger
                 (mkLedgerRecord fid bucket (latestFile f rest).key fileType
                   (hashOf (latestFile f rest).key) (latestFile f rest).size
                   0 ts "failed" (some e)),
             schemaVersions :=
               (trackSchema db.schemaVersions tableName pf.schema sid).2.2,
             rawTables := createTableIfMissing db.rawTables tableName }) := by
      simp [rawIngest, hproc, hparse]
    rw [hres]
    exact ⟨rfl, mem_recordFileMetadata_self db.ledger _ hrow⟩

/-- C8 witness: over the fixture database whose only h1 row is a failed
attempt, a parse failure re-raises and leaves a failed h1 ledger row
with the message and row_count 0. -/
theorem claim_C8_witness :
    (rawIngest wDBFailed "raw_accounts" "accounts" "landing" [wObj] wHashOf
        wParseErr none "fid-9" "sid-9" 1).1 = IngestOutcome.failed "parse error"
    ∧ ∃ x ∈ (rawIngest wDBFailed "raw_accounts" "accounts" "landing" [wObj]
          wHashOf wParseErr none "fid-9" "sid-9" 1).2.ledger,
        x.file_hash = "h1" ∧ x.processing_status = "failed"
        ∧ x.error_message = some "parse error" ∧ x.row_count = 0 :=
  claim_C8 wDBFailed "raw_accounts" "accounts" "landing" wObj [] wHashOf
    wParseErr none "fid-9" "sid-9" 1 "parse error" (by decide)
    (by
      intro x hx
      simp only [wDBFailed, List.mem_singleton] at hx
      subst hx
      right
      rfl)
    (Or.inl rfl)

/-- C9. Missing source files are a non-fatal warning: on an empty
object-store listing the asset returns (no exception) with the
NO FILES FOUND status text and leaves the ledger, the schema versions
and the raw tables all untouched. -/
theorem claim_C9 :
    ∀ (db : RawDB) (tableName fileType bucket : String)
      (hashOf : String → String) (parse : String → Except String ParsedFile)
      (insertErr : Option String) (fid sid : String) (ts : Nat),
      rawIngest db tableName fileType bucket [] hashOf parse insertErr fid sid ts
        = (IngestOutcome.noFiles, db)
      ∧ IngestOutcome.noFiles.statusText = some "⚠️ NO FILES FOUND" := by
  intro db tableName fileType bucket hashOf parse insertErr fid sid ts
  exact ⟨rfl, rfl⟩

/-- C9 witness: the fixture database passes through an empty-listing
invocation unchanged. -/
theorem claim_C9_witness :
    rawIngest wDBCompleted "raw_accounts" "accounts" "landing" [] wHashOf
        wParseOk none "fid-9" "sid-9" 1 = (IngestOutcome.noFiles, wDBCompleted)
    ∧ IngestOutcome.noFiles.statusText = some "⚠️ NO FILES FOUND" :=
  claim_C9 wDBCompleted "raw_accounts" "accounts" "landing" wHashOf wParseOk
    none "fid-9" "sid-9" 1

/-- C10. The new-work detectors are total by construction — their
embedding returns a plain count with no error channel — and any query
failure falls back as follows: a failing anti-join falls back to the
bare source count, a failure of both yields 0, and a missing source
relation therefore reports exactly the no-new-work result (false, 0)
at the call site, indistinguishable from genuinely empty work. -/
theorem claim_C10 :
    (∀ (n : Nat) (cq : Except Unit Nat),
        newCountFallback (Except.ok n) cq = n) ∧
    (∀ n : Nat, newCountFallback (Except.error ()) (Except.ok n) = n) ∧
    newCountFallback (Except.error ()) (Except.error ()) = 0 ∧
    (∀ src tgt : Option (List String),
        checkForNewData src tgt
          = newCountFallback (antiJoinCount src tgt) (countSource src)) ∧
    (∀ tgt : Option (List String), checkForNewData none tgt = 0) ∧
    (∀ strAcc strCust : Option (List String),
        checkForNewRawData none strAcc none strCust = (false, 0, 0)) ∧
    (∀ fact : Option (List String),
        checkForNewStructuredData none fact = (false, 0)) := by
  refine ⟨fun n cq => rfl, fun n => rfl, rfl, fun src tgt => rfl, ?_, ?_, ?_⟩
  · intro tgt
    cases tgt <;> rfl
  · intro strAcc strCust
    cases strAcc <;> cases strCust <;> rfl
  · intro fact
    cases fact <;> rfl

/-- C10 witness: with both queries failing the detector reports zero
new rows, and a missing raw source yields the skip-equivalent result. -/
theorem claim_C10_witness :
    newCountFallback (Except.error ()) (Except.error ()) = 0
    ∧ checkForNewRawData none (some ["a1"]) none (some ["c1"]) = (false, 0, 0) :=
  ⟨claim_C10.2.2.1, claim_C10.2.2.2.2.2.1 (some ["a1"]) (some ["c1"])⟩

end BankingPipeline
